import Mathlib

/-!
Verification of the bitwise phonemic engine (`eye_of_horus/bitwise.py`):
8-bit semantic addressing, the 256-entry verb lookup table, layered decoding,
triangular relation indexing and grammar composition.

Python integers are modelled as `Nat` (all quantities involved are
non-negative); numpy fancy indexing, which raises `IndexError` out of
bounds, is modelled with `Option`-valued lookups (`List.get?`); the dict
lookup `PHONEME_TO_ID[p]`, which raises `KeyError` on a missing key, is
modelled with `List.lookup` on an association list in source order.
The float expression `(1 + 8*index) ** 0.5` in `relation_to_pair` is
modelled by the exact integer square root `floorSqrt`: on the domains
considered the double-precision value is exact, and the spec itself
treats the float formula as a non-normative reference for
`b = floor((sqrt(8*index+1) - 1)/2)`.
-/

set_option maxRecDepth 40000

namespace EyeOfHorus

/-! ### Phoneme IDs (5 bits: 0-21) -/

-- Wheel phonemes (0-15)
def ID_N : Nat := 0
def ID_W : Nat := 1
def ID_S : Nat := 2
def ID_SH : Nat := 3
def ID_A : Nat := 4
def ID_T : Nat := 5
def ID_H : Nat := 6
def ID_R : Nat := 7
def ID_M : Nat := 8
def ID_AA : Nat := 9
def ID_Y : Nat := 10
def ID_B : Nat := 11
def ID_P : Nat := 12
def ID_I : Nat := 13
def ID_KH : Nat := 14
def ID_DJ : Nat := 15

-- Spine phonemes (16-21)
def ID_D : Nat := 16
def ID_K : Nat := 17
def ID_X : Nat := 18
def ID_G : Nat := 19
def ID_F : Nat := 20
def ID_HH : Nat := 21

def SPINE_BIT : Nat := 0b10000

/-! ### Position encoding (3 bits): `class Pos(IntEnum)` -/

namespace Pos

def EQ_MASC : Nat := 0b000

def MIN_MASC : Nat := 0b001

def MAX_MASC : Nat := 0b010

def EQ_FEM : Nat := 0b100

def MIN_FEM : Nat := 0b101

def MAX_FEM : Nat := 0b110

end Pos

def MODE_MASC : Nat := 0
def MODE_FEM : Nat := 1
def MODE_MASK : Nat := 0b100

def POLE_EQ : Nat := 0b00
def POLE_MIN : Nat := 0b01
def POLE_MAX : Nat := 0b10
def POLE_MASK : Nat := 0b011

/-! ### Layer encoding: `class Layer(IntEnum)`, `LAYER_POS` -/

namespace Layer

def CORE : Nat := 0

def F1 : Nat := 1

def F2 : Nat := 2

def M1 : Nat := 3

def M2 : Nat := 4

end Layer

def LAYER_POS : List Nat :=
  [Pos.EQ_MASC, Pos.MIN_FEM, Pos.MAX_FEM, Pos.MIN_MASC, Pos.MAX_MASC]

/-! ### Phoneme mappings -/

def PHONEME_TO_ID : List (String × Nat) :=
  [("n", ID_N), ("w", ID_W), ("s", ID_S), ("sh", ID_SH),
   ("A", ID_A), ("t", ID_T), ("H", ID_H), ("r", ID_R),
   ("m", ID_M), ("a", ID_AA), ("y", ID_Y), ("b", ID_B),
   ("p", ID_P), ("i", ID_I), ("kh", ID_KH), ("dj", ID_DJ),
   ("d", ID_D), ("k", ID_K), ("x", ID_X),
   ("g", ID_G), ("f", ID_F), ("h", ID_HH)]

def ID_TO_PHONEME : List String :=
  ["n", "w", "s", "sh", "A", "t", "H", "r",
   "m", "a", "y", "b", "p", "i", "kh", "dj",
   "d", "k", "x", "g", "f", "h"]

def NUM_PHONEMES : Nat := 22
def NUM_WHEEL : Nat := 16
def NUM_SPINE : Nat := 6

/-! ### Verb table (256 entries, indexed by semantic address) -/

/-- One row of `_VERB_DATA`: `(eq_m, min_m, max_m, eq_f, min_f, max_f)`. -/
structure VerbRow where
  eq_m : String
  min_m : String
  max_m : String
  eq_f : String
  min_f : String
  max_f : String

/-- `_VERB_DATA` of `bitwise.py`, in source order. -/
def VERB_DATA : List (Nat × VerbRow) :=
  [(ID_N, ⟨"INTEGRATE", "FRAGMENT", "FUSE", "WEAVE", "UNRAVEL", "INTERLOCK"⟩),
   (ID_W, ⟨"RADIATE", "CONTAIN", "FLOOD", "FLOW", "STAGNATE", "CIRCULATE"⟩),
   (ID_S, ⟨"EMERGE", "REGRESS", "BURST", "CRYSTALLISE", "EXPOSE", "ENCASE"⟩),
   (ID_SH, ⟨"DIRECT", "SCATTER", "COMMAND", "ALIGN", "DRIFT", "ORIENT"⟩),
   (ID_A, ⟨"LEAD", "ABANDON", "DRIVE", "TEND", "NEGLECT", "NURTURE"⟩),
   (ID_T, ⟨"READ", "MISREAD", "DECODE", "ETCH", "ERASE", "INSCRIBE"⟩),
   (ID_H, ⟨"EXPRESS", "SUPPRESS", "PROCLAIM", "INTERPRET", "MISREAD", "COMPREHEND"⟩),
   (ID_R, ⟨"SHINE", "DIM", "BLAZE", "BASK", "SHADE", "ABSORB"⟩),
   (ID_M, ⟨"TRUE", "FALSIFY", "VERIFY", "TRUST", "DOUBT", "BELIEVE"⟩),
   (ID_AA, ⟨"HONOUR", "DISHONOUR", "REVERE", "ALLOW", "BLOCK", "PERMIT"⟩),
   (ID_Y, ⟨"DEVOTE", "BETRAY", "CONSECRATE", "RESTORE", "NEGLECT", "HEAL"⟩),
   (ID_B, ⟨"RECEIVE", "REFUSE", "ENGULF", "CULTIVATE", "DEPLETE", "NOURISH"⟩),
   (ID_P, ⟨"STORE", "SCATTER", "HOARD", "GATHER", "DISPERSE", "COLLECT"⟩),
   (ID_I, ⟨"BESTOW", "WITHHOLD", "GIFT", "PROTECT", "EXPOSE", "GUARD"⟩),
   (ID_KH, ⟨"EMBODY", "FUMBLE", "MASTER", "CAPACITY", "NUMB", "DEFT"⟩),
   (ID_DJ, ⟨"DISCERN", "CONFUSE", "PERCEIVE", "ACT", "HESITATE", "EXECUTE"⟩),
   (ID_D, ⟨"DO", "STALL", "FORCE", "MIDWIFE", "WAIT", "COMPLETE"⟩),
   (ID_K, ⟨"CYCLE", "HALT", "ACCELERATE", "RETURN", "REST", "REUNITE"⟩),
   (ID_X, ⟨"FUNDAMENT", "DISSOLVE", "PETRIFY", "FOUNDATION", "RELEASE", "ANCHOR"⟩),
   (ID_G, ⟨"GROUND", "FLOAT", "SINK", "STABILIZE", "UNROOT", "ANCHOR"⟩),
   (ID_F, ⟨"BREATHE", "CHOKE", "FLOOD", "FLOW", "STILL", "SURGE"⟩),
   (ID_HH, ⟨"SEE", "BLIND", "PIERCE", "WITNESS", "IGNORE", "BEHOLD"⟩)]

/-- The construction loop body: store the six verbs of one `_VERB_DATA`
row at their six addresses. -/
def setVerbRow (table : List String) (e : Nat × VerbRow) : List String :=
  let pid := e.1
  let v := e.2
  (((((table.set ((pid <<< 3) ||| Pos.EQ_MASC) v.eq_m).set
    ((pid <<< 3) ||| Pos.MIN_MASC) v.min_m).set
    ((pid <<< 3) ||| Pos.MAX_MASC) v.max_m).set
    ((pid <<< 3) ||| Pos.EQ_FEM) v.eq_f).set
    ((pid <<< 3) ||| Pos.MIN_FEM) v.min_f).set
    ((pid <<< 3) ||| Pos.MAX_FEM) v.max_f

/-- `VERB_TABLE`: 256 slots, initialised to the empty string, then filled
from `_VERB_DATA`. -/
def VERB_TABLE : List String :=
  VERB_DATA.foldl setVerbRow (List.replicate 256 "")

/-- `CORE_VERB_TABLE` (equilibrium only). -/
def CORE_VERB_TABLE : List String :=
  ["INTEGRATE", "RADIATE", "EMERGE", "DIRECT", "LEAD", "READ", "EXPRESS", "SHINE",
   "TRUE", "HONOUR", "DEVOTE", "RECEIVE", "STORE", "BESTOW", "EMBODY", "DISCERN",
   "DO", "CYCLE", "FUNDAMENT", "GROUND", "BREATHE", "SEE"]

/-! ### Encoding functions -/

/-- `encode_phonemes`: dict lookup per label; a missing key raises, so the
whole conversion is `Option`-valued. -/
def encode_phonemes : List String → Option (List Nat)
  | [] => some []
  | p :: rest =>
    match PHONEME_TO_ID.lookup p, encode_phonemes rest with
    | some i, some is' => some (i :: is')
    | _, _ => none

/-- `decode_ids`: `ID_TO_PHONEME[i]` per id; an out-of-range id raises,
so the conversion is `Option`-valued. -/
def decode_ids : List Nat → Option (List String)
  | [] => some []
  | i :: rest =>
    match ID_TO_PHONEME.get? i, decode_ids rest with
    | some p, some ps => some (p :: ps)
    | _, _ => none

/-- `semantic_address(phoneme_id, mode, pole) = (phoneme_id << 3) | (mode << 2) | pole`. -/
def semantic_address (phoneme_id mode pole : Nat) : Nat :=
  (phoneme_id <<< 3) ||| (mode <<< 2) ||| pole

/-- `address_to_components(address) = (address >> 3, (address >> 2) & 1, address & 0b011)`. -/
def address_to_components (address : Nat) : Nat × Nat × Nat :=
  (address >>> 3, (address >>> 2) &&& 1, address &&& 0b011)

/-! ### Classification -/

/-- `is_wheel(phoneme_id) = (phoneme_id & SPINE_BIT) == 0`. -/
def is_wheel (phoneme_id : Nat) : Bool :=
  (phoneme_id &&& SPINE_BIT) == 0

/-- `is_spine(phoneme_id) = (phoneme_id & SPINE_BIT) != 0`. -/
def is_spine (phoneme_id : Nat) : Bool :=
  (phoneme_id &&& SPINE_BIT) != 0

/-! ### Layered decode -/

/-- numpy fancy indexing `VERB_TABLE[addresses]`: every address must be in
bounds or the whole indexing operation raises. -/
def lookupTableList : List Nat → Option (List String)
  | [] => some []
  | a :: rest =>
    match VERB_TABLE.get? a, lookupTableList rest with
    | some v, some vs => some (v :: vs)
    | _, _ => none

/-- The non-core address computation of `decode_layer`: position `i` gets
the layer's pole when `i & 1 == 0`, the equilibrium pole otherwise, always
with the layer's mode bits. -/
def layerAddresses (layer_mode layer_pole : Nat) : Nat → List Nat → List Nat
  | _, [] => []
  | i, id :: rest =>
    ((id <<< 3) ||| ((layer_mode <<< 2) ||| (if i &&& 1 == 0 then layer_pole else POLE_EQ)))
      :: layerAddresses layer_mode layer_pole (i + 1) rest

/-- `decode_layer(phoneme_ids, layer)`: core layer uses address
`(id << 3) | EQ_MASC` everywhere; other layers alternate the layer pole
(even positions) with equilibrium (odd positions) under the layer's mode;
all addresses are then resolved through `VERB_TABLE`. -/
def decode_layer (phoneme_ids : List Nat) (layer : Nat) : Option (List String) :=
  match LAYER_POS.get? layer with
  | none => none
  | some layer_pos =>
    let addresses :=
      if layer == Layer.CORE then
        phoneme_ids.map (fun id => (id <<< 3) ||| Pos.EQ_MASC)
      else
        layerAddresses ((layer_pos >>> 2) &&& 1) (layer_pos &&& POLE_MASK) 0 phoneme_ids
    lookupTableList addresses

/-! ### Relation encoding (triangular indexing over wheel pairs) -/

/-- Newton iteration for the integer square root, with explicit fuel so
that the recursion is structural and evaluates inside the kernel. The
iteration count is logarithmic; the fuel is a generous upper bound. -/
def isqrtAux (n : Nat) : Nat → Nat → Nat
  | 0, guess => guess
  | fuel + 1, guess =>
    let next := (guess + n / guess) / 2
    if next < guess then isqrtAux n fuel next else guess

/-- Exact integer square root `⌊√n⌋`, used to model the source's float
`(...) ** 0.5` (which is exact on the domains considered here). -/
def floorSqrt (n : Nat) : Nat :=
  if n ≤ 1 then n else isqrtAux n n (n / 2)

/-- `relation_index(a, b)`: canonicalise so `a ≤ b`, then `T(b) + a`
with `T(b) = b*(b+1) >> 1`. No domain validation is performed. -/
def relation_index (a b : Nat) : Nat :=
  let p := if a > b then (b, a) else (a, b)
  ((p.2 * (p.2 + 1)) >>> 1) + p.1

/-- `relation_to_pair(index)`: `b = floor((sqrt(8*index+1) - 1)/2)` (the
source computes this with a float square root, exact on this domain;
modelled with `floorSqrt`), `a = index - T(b)`. No domain validation. -/
def relation_to_pair (index : Nat) : Nat × Nat :=
  let b := (floorSqrt (1 + 8 * index) - 1) / 2
  let a := index - ((b * (b + 1)) >>> 1)
  (a, b)

def NUM_WHEEL_RELATIONS : Nat := 136

/-! ### Grammar encoding (scale + relation) -/

namespace Scale

def ONTOGENIC : Nat := 0

def PHYLOGENIC : Nat := 1

def COSMOGENIC : Nat := 2

end Scale

/-- `grammar_index(scale, relation) = scale * 136 + relation`. -/
def grammar_index (scale relation : Nat) : Nat :=
  scale * NUM_WHEEL_RELATIONS + relation

/-- `grammar_to_components(index) = (index // 136, index % 136)`. -/
def grammar_to_components (index : Nat) : Nat × Nat :=
  (index / NUM_WHEEL_RELATIONS, index % NUM_WHEEL_RELATIONS)

def TOTAL_GRAMMAR : Nat := 408

/-! ### Fast path: phoneme strings to core verbs -/

/-- numpy fancy indexing `CORE_VERB_TABLE[ids]`. -/
def coreLookupMany : List Nat → Option (List String)
  | [] => some []
  | i :: rest =>
    match CORE_VERB_TABLE.get? i, coreLookupMany rest with
    | some v, some vs => some (v :: vs)
    | _, _ => none

/-- `phonemes_to_verbs_fast(phonemes) = CORE_VERB_TABLE[encode_phonemes(phonemes)]`. -/
def phonemes_to_verbs_fast (phonemes : List String) : Option (List String) :=
  (encode_phonemes phonemes).bind coreLookupMany

/-! ### Statement-side definitions

These are written from the claims' words (spec §4.2–§4.5, §7, §8) and are
compared against the source-derived functions above. -/

/-- All canonical wheel pairs `(a, b)` with `a ≤ b ≤ 15`, enumerated
`b`-major the way `T(b) + a` orders them. -/
def canonicalWheelPairs : List (Nat × Nat) :=
  (List.range 16).flatMap fun b => (List.range (b + 1)).map fun a => (a, b)

/-- The relation indices of all 136 canonical wheel pairs. -/
def relationIndexList : List Nat :=
  canonicalWheelPairs.map fun p => relation_index p.1 p.2

/-- The grammar indices of all `(scale, relation)` pairs, scale-major. -/
def grammarIndexList : List Nat :=
  (List.range 3).flatMap fun s => (List.range 136).map fun r => grammar_index s r

/-- The error taxonomy the spec prescribes (§7). The source performs no
validation, so these only appear in the spec-side contract functions. -/
inductive BitwiseError where
  | UnknownSymbol
  | OutOfRange
  | InvalidAddressComponent
  | UnpopulatedAddress
deriving DecidableEq, Repr

/-- Spec-side contract for `relation_index` (§4.5): fail with `OutOfRange`
unless `a, b ∈ [0,15]`, else the triangular index. Stated from the spec's
words for comparison with the source's unvalidated `relation_index`. -/
def relation_index_contract (a b : Nat) : Except BitwiseError Nat :=
  if a ≤ 15 ∧ b ≤ 15 then .ok (relation_index a b) else .error .OutOfRange

/-- Spec-side contract for `relation_to_pair` (§4.5): fail with
`OutOfRange` unless `index ∈ [0,135]`. -/
def relation_to_pair_contract (index : Nat) : Except BitwiseError (Nat × Nat) :=
  if index ≤ 135 then .ok (relation_to_pair index) else .error .OutOfRange

/-- Spec-side contract for `encode` (§4.2): fail with
`InvalidAddressComponent` unless `symbol_id ∈ [0,21]`, `mode ∈ {0,1}`,
`pole ∈ {0,1,2}`. -/
def semantic_address_contract (symbol_id mode pole : Nat) :
    Except BitwiseError Nat :=
  if symbol_id ≤ 21 ∧ mode ≤ 1 ∧ pole ≤ 2 then
    .ok (semantic_address symbol_id mode pole)
  else .error .InvalidAddressComponent

/-- The meaning stored at an address (statement-side shorthand; on the
valid domain the slot exists, so the default is never taken there). -/
def lookupVerb (address : Nat) : String :=
  (VERB_TABLE.get? address).getD ""

/-- The claim's layer algorithm, from the spec's words: position `i` uses
the layer's pole when `i` is even and the equilibrium pole when `i` is
odd, always with the layer's fixed mode; each position resolves via
`encode` + `lookup`. -/
def layerSpecFrom (mode pole : Nat) : Nat → List Nat → List String
  | _, [] => []
  | i, id :: rest =>
    lookupVerb (semantic_address id mode (if i % 2 = 0 then pole else POLE_EQ))
      :: layerSpecFrom mode pole (i + 1) rest

/-- The claim's core-layer algorithm: every position resolves to the
primary-mode/equilibrium meaning, regardless of parity. -/
def coreSpec (ids : List Nat) : List String :=
  ids.map fun id => lookupVerb (semantic_address id MODE_MASC POLE_EQ)

/-- The 22 canonical labels, in source order. -/
def phonemeVocab : List String :=
  PHONEME_TO_ID.map Prod.fst

/-! ## Theorems -/

/-! ### Claim C1 -/

/-- Claim C1: address round-trip — for every `symbol_id ∈ [0,21]`,
`mode ∈ {0,1}`, `pole ∈ {0,1,2}`,
`address_to_components (semantic_address symbol_id mode pole) = (symbol_id, mode, pole)`. -/
theorem C1_address_roundtrip :
    ∀ s, s < 22 → ∀ m, m < 2 → ∀ p, p < 3 →
      address_to_components (semantic_address s m p) = (s, m, p) := by
  decide

/-- Concrete instance of the address round-trip at `(5, 1, 2)`. -/
theorem C1_address_roundtrip_witness :
    address_to_components (semantic_address 5 1 2) = (5, 1, 2) :=
  C1_address_roundtrip 5 (by decide) 1 (by decide) 2 (by decide)

/-! ### Claim C2 -/

/-- Claim C2: relation bijection — `relation_index` is symmetric, is
inverted by `relation_to_pair` as `(min a b, max a b)` on all of
`[0,15]²`, and the 136 indices of the canonical pairs are pairwise
distinct and exactly fill `{0, ..., 135}`. -/
theorem C2_relation_bijection :
    (∀ a, a < 16 → ∀ b, b < 16 → relation_index a b = relation_index b a) ∧
    (∀ a, a < 16 → ∀ b, b < 16 →
      relation_to_pair (relation_index a b) = (min a b, max a b)) ∧
    relationIndexList.Nodup ∧
    relationIndexList.length = 136 ∧
    (∀ i ∈ relationIndexList, i < 136) := by
  refine ⟨by decide, by decide, by decide, by decide, by decide⟩

/-- Concrete instance of the relation bijection at `(12, 7)`. -/
theorem C2_relation_bijection_witness :
    relation_index 12 7 = relation_index 7 12 ∧
    relation_to_pair (relation_index 12 7) = (7, 12) :=
  ⟨C2_relation_bijection.1 12 (by decide) 7 (by decide),
   C2_relation_bijection.2.1 12 (by decide) 7 (by decide)⟩

/-! ### Claim C8 -/

/-- Claim C8: grammar round-trip — for every `scale ∈ {0,1,2}` and
`relation ∈ [0,135]`, `grammar_to_components (grammar_index scale relation)
= (scale, relation)`, and over the full valid domain the grammar indices
are exactly `0, ..., 407` with no gaps or duplicates. -/
theorem C8_grammar_roundtrip :
    (∀ s, s < 3 → ∀ r, r < 136 →
      grammar_to_components (grammar_index s r) = (s, r)) ∧
    grammarIndexList = List.range 408 := by
  constructor
  · intro s hs r hr
    unfold grammar_index grammar_to_components NUM_WHEEL_RELATIONS
    have h1 : (s * 136 + r) / 136 = s := by omega
    have h2 : (s * 136 + r) % 136 = r := by omega
    rw [h1, h2]
  · decide

/-- Concrete instance of the grammar round-trip at `(2, 135)`. -/
theorem C8_grammar_roundtrip_witness :
    grammar_to_components (grammar_index 2 135) = (2, 135) :=
  C8_grammar_roundtrip.1 2 (by decide) 135 (by decide)

/-! ### Claim C4 -/

/-- Claim C4: verb table density — the 256-slot `VERB_TABLE` holds exactly
132 non-empty strings (22 symbols × 6 live mode/pole combinations) and
124 empty strings. -/
theorem C4_verb_table_density :
    VERB_TABLE.length = 256 ∧
    VERB_TABLE.countP (fun s => !(s == "")) = 132 ∧
    VERB_TABLE.countP (fun s => s == "") = 124 := by
  refine ⟨by decide, by decide, by decide⟩

/-! ### Claim C3: the layer decoder -/

/-- For a valid id and live mode/pole bits, the table lookup made by the
decoder succeeds and returns the addressed meaning. -/
theorem verbTable_get_valid :
    ∀ id, id < 22 → ∀ m, m < 2 → ∀ p, p < 3 →
      VERB_TABLE.get? ((id <<< 3) ||| ((m <<< 2) ||| p)) =
        some (lookupVerb (semantic_address id m p)) := by
  decide

/-- Core-branch form of `verbTable_get_valid`. The bound is 32, not 22:
for ids 22-31 the address still lands inside the table (in an unpopulated
slot), so the lookup also succeeds there. -/
theorem verbTable_get_core :
    ∀ id, id < 32 →
      VERB_TABLE.get? ((id <<< 3) ||| Pos.EQ_MASC) =
        some (lookupVerb (semantic_address id MODE_MASC POLE_EQ)) := by
  decide

/-- The non-core decode loop agrees with the claim's alternation
algorithm, for any starting position. -/
theorem lookupTableList_layerAddresses (m p : Nat) (hm : m < 2) (hp : p < 3) :
    ∀ (ids : List Nat), (∀ id ∈ ids, id < 22) → ∀ i,
      lookupTableList (layerAddresses m p i ids) =
        some (layerSpecFrom m p i ids) := by
  intro ids
  induction ids with
  | nil => intro _ i; rfl
  | cons id rest ih =>
    intro h i
    have hid : id < 22 := h id (List.mem_cons_self id rest)
    have hrest : ∀ x ∈ rest, x < 22 := fun x hx => h x (List.mem_cons_of_mem id hx)
    have hand : i &&& 1 = i % 2 := Nat.and_one_is_mod i
    by_cases hi : i % 2 = 0
    · simp only [layerAddresses, lookupTableList, layerSpecFrom, hand, hi,
        if_pos, beq_self_eq_true]
      rw [verbTable_get_valid id hid m hm p hp, ih hrest (i + 1)]
    · have hbeq : (i % 2 == 0) = false := by simpa using hi
      simp only [layerAddresses, lookupTableList, layerSpecFrom, hand, hbeq,
        if_neg hi, Bool.false_eq_true, if_false]
      have hpe : POLE_EQ < 3 := by decide
      rw [verbTable_get_valid id hid m hm POLE_EQ hpe, ih hrest (i + 1)]

/-- The core branch agrees with the claim's core algorithm (ids below 32
keep the address inside the table, so no failure occurs). -/
theorem lookupTableList_coreMap :
    ∀ (ids : List Nat), (∀ id ∈ ids, id < 32) →
      lookupTableList (ids.map fun id => (id <<< 3) ||| Pos.EQ_MASC) =
        some (coreSpec ids) := by
  intro ids
  induction ids with
  | nil => intro _; rfl
  | cons id rest ih =>
    intro h
    have hid : id < 32 := h id (List.mem_cons_self id rest)
    have hrest : ∀ x ∈ rest, x < 32 := fun x hx => h x (List.mem_cons_of_mem id hx)
    simp only [List.map_cons, lookupTableList, coreSpec]
    rw [verbTable_get_core id hid, ih hrest]
    rfl

/-- `layerSpecFrom` is length-preserving. -/
theorem layerSpecFrom_length (m p : Nat) :
    ∀ (ids : List Nat) (i : Nat), (layerSpecFrom m p i ids).length = ids.length := by
  intro ids
  induction ids with
  | nil => intro i; rfl
  | cons id rest ih => intro i; simp [layerSpecFrom, ih (i + 1)]

/-- Claim C3: layer decoder algorithm — on a sequence of valid symbol
ids, `decode_layer` succeeds; the `Core` layer resolves every position to
the primary-mode/equilibrium meaning regardless of parity; layers `F1`,
`F2`, `M1`, `M2` resolve position `i` with their fixed mode
(`F1`, `F2`: secondary; `M1`, `M2`: primary), using the layer's pole
(`F1`, `M1`: minimum; `F2`, `M2`: maximum) at even `i` and the
equilibrium pole at odd `i`; the output has the input's length, and the
empty input yields the empty output on every layer. -/
theorem C3_decode_layer_algorithm :
    ∀ ids : List Nat, (∀ id ∈ ids, id < 22) →
      decode_layer ids Layer.CORE = some (coreSpec ids) ∧
      decode_layer ids Layer.F1 = some (layerSpecFrom MODE_FEM POLE_MIN 0 ids) ∧
      decode_layer ids Layer.F2 = some (layerSpecFrom MODE_FEM POLE_MAX 0 ids) ∧
      decode_layer ids Layer.M1 = some (layerSpecFrom MODE_MASC POLE_MIN 0 ids) ∧
      decode_layer ids Layer.M2 = some (layerSpecFrom MODE_MASC POLE_MAX 0 ids) ∧
      (∀ L, L < 5 → ∃ out, decode_layer ids L = some out ∧
        out.length = ids.length) ∧
      (∀ L, L < 5 → decode_layer ([] : List Nat) L = some []) := by
  intro ids h
  have hcore : decode_layer ids Layer.CORE = some (coreSpec ids) := by
    show lookupTableList (ids.map fun id => (id <<< 3) ||| Pos.EQ_MASC) = some (coreSpec ids)
    exact lookupTableList_coreMap ids (fun x hx => Nat.lt_of_lt_of_le (h x hx) (by omega))
  have hf1 : decode_layer ids Layer.F1 = some (layerSpecFrom MODE_FEM POLE_MIN 0 ids) := by
    show lookupTableList (layerAddresses 1 1 0 ids) = _
    exact lookupTableList_layerAddresses 1 1 (by decide) (by decide) ids h 0
  have hf2 : decode_layer ids Layer.F2 = some (layerSpecFrom MODE_FEM POLE_MAX 0 ids) := by
    show lookupTableList (layerAddresses 1 2 0 ids) = _
    exact lookupTableList_layerAddresses 1 2 (by decide) (by decide) ids h 0
  have hm1 : decode_layer ids Layer.M1 = some (layerSpecFrom MODE_MASC POLE_MIN 0 ids) := by
    show lookupTableList (layerAddresses 0 1 0 ids) = _
    exact lookupTableList_layerAddresses 0 1 (by decide) (by decide) ids h 0
  have hm2 : decode_layer ids Layer.M2 = some (layerSpecFrom MODE_MASC POLE_MAX 0 ids) := by
    show lookupTableList (layerAddresses 0 2 0 ids) = _
    exact lookupTableList_layerAddresses 0 2 (by decide) (by decide) ids h 0
  refine ⟨hcore, hf1, hf2, hm1, hm2, ?_, by decide⟩
  intro L hL
  interval_cases L
  · exact ⟨coreSpec ids, hcore, by simp [coreSpec]⟩
  · exact ⟨_, hf1, layerSpecFrom_length 1 1 ids 0⟩
  · exact ⟨_, hf2, layerSpecFrom_length 1 2 ids 0⟩
  · exact ⟨_, hm1, layerSpecFrom_length 0 1 ids 0⟩
  · exact ⟨_, hm2, layerSpecFrom_length 0 2 ids 0⟩

/-- Concrete instance of C3: the spec's own F1 example — the same symbol
repeated four times alternates `min_fem, eq_fem, min_fem, eq_fem`. -/
theorem C3_decode_layer_algorithm_witness :
    decode_layer [ID_N, ID_N, ID_N, ID_N] Layer.F1 =
      some ["UNRAVEL", "WEAVE", "UNRAVEL", "WEAVE"] ∧
    decode_layer [ID_N, ID_W, ID_S] Layer.CORE =
      some ["INTEGRATE", "RADIATE", "EMERGE"] := by
  have h := C3_decode_layer_algorithm [ID_N, ID_N, ID_N, ID_N] (by decide)
  have h2 := C3_decode_layer_algorithm [ID_N, ID_W, ID_S] (by decide)
  exact ⟨h.2.1.trans (by decide), h2.1.trans (by decide)⟩

/-! ### Claim C5 (corrected): the source performs no domain validation -/

/-- Claim C5, counterexample: the claim says `relation_index` fails with
`OutOfRange` for spine ids; at `(16, 16)` the source silently returns the
ordinary value 152 (outside the documented range [0,135]), where the
spec contract demands an error; likewise `relation_to_pair` silently
accepts the out-of-domain index 152. -/
theorem C5_counterexample_no_validation :
    relation_index 16 16 = 152 ∧
    relation_index_contract 16 16 = .error .OutOfRange ∧
    relation_to_pair 152 = (16, 16) ∧
    relation_to_pair_contract 152 = .error .OutOfRange := by
  refine ⟨by decide, by rfl, by decide, by rfl⟩

/-- Claim C5, amended: `relation_index` and `relation_to_pair` perform no
domain validation and are total; on valid inputs they agree with the spec
contract, and on ids up to 21 (spine ids included) the triangular
round-trip still holds, with out-of-domain inputs silently mapped to
indices ≥ 136 instead of failing. -/
theorem C5_relation_no_validation :
    (∀ a, a ≤ 15 → ∀ b, b ≤ 15 →
      relation_index_contract a b = .ok (relation_index a b)) ∧
    (∀ i, i ≤ 135 →
      relation_to_pair_contract i = .ok (relation_to_pair i)) ∧
    (∀ a, a ≤ 21 → ∀ b, b ≤ 21 →
      relation_to_pair (relation_index a b) = (min a b, max a b)) ∧
    (∀ a, a ≤ 21 → ∀ b, b ≤ 21 → 16 ≤ a ∨ 16 ≤ b →
      136 ≤ relation_index a b) := by
  refine ⟨?_, ?_, by decide, by decide⟩
  · intro a ha b hb
    simp [relation_index_contract, ha, hb]
  · intro i hi
    simp [relation_to_pair_contract, hi]

/-- Concrete instances of the amended C5 statement. -/
theorem C5_relation_no_validation_witness :
    relation_index_contract 3 5 = .ok (relation_index 3 5) ∧
    relation_to_pair_contract 135 = .ok (relation_to_pair 135) ∧
    relation_to_pair (relation_index 16 16) = (16, 16) ∧
    136 ≤ relation_index 16 16 :=
  ⟨C5_relation_no_validation.1 3 (by decide) 5 (by decide),
   C5_relation_no_validation.2.1 135 (by decide),
   C5_relation_no_validation.2.2.1 16 (by decide) 16 (by decide),
   C5_relation_no_validation.2.2.2 16 (by decide) 16 (by decide) (by decide)⟩

/-! ### Claim C6 (corrected): `semantic_address` performs no validation -/

/-- Claim C6, counterexample: the claim says `semantic_address` fails with
`InvalidAddressComponent` on invalid components; at `(0, 2, 0)` (mode 2 is
invalid) the source silently returns 8, which is also the address of the
valid triple `(1, 0, 0)` — the invalid mode bit bleeds into the symbol
field. The spec contract demands an error there. -/
theorem C6_counterexample_no_validation :
    semantic_address 0 2 0 = 8 ∧
    semantic_address 1 0 0 = 8 ∧
    semantic_address_contract 0 2 0 = .error .InvalidAddressComponent := by
  refine ⟨by decide, by decide, by rfl⟩

/-- Claim C6, amended: `semantic_address` performs no validation: it is a
total function that agrees with the spec contract on valid components,
and silently produces addresses from invalid components — in particular
the invalid mode 2 sets bit 3 of the address, aliasing the primary-mode
address of symbol `s ||| 1`. -/
theorem C6_encode_no_validation :
    (∀ s, s ≤ 21 → ∀ m, m ≤ 1 → ∀ p, p ≤ 2 →
      semantic_address_contract s m p = .ok (semantic_address s m p)) ∧
    (∀ s, s ≤ 21 → ∀ p, p ≤ 2 →
      semantic_address s 2 p = semantic_address (s ||| 1) 0 p) := by
  constructor
  · intro s hs m hm p hp
    simp [semantic_address_contract, hs, hm, hp]
  · decide

/-- Concrete instances of the amended C6 statement. -/
theorem C6_encode_no_validation_witness :
    semantic_address_contract 21 1 2 = .ok (semantic_address 21 1 2) ∧
    semantic_address 0 2 0 = semantic_address (0 ||| 1) 0 0 :=
  ⟨C6_encode_no_validation.1 21 (by decide) 1 (by decide) 2 (by decide),
   C6_encode_no_validation.2 0 (by decide) 0 (by decide)⟩

/-! ### Claim C7 (corrected): no failure, no `UnpopulatedAddress` -/

/-- Claim C7, counterexample: the claim says `decode_layer` fails on any
sequence containing an id outside `[0,21]`, and that an unpopulated slot
yields an `UnpopulatedAddress` error rather than the empty-string
sentinel; with the out-of-vocabulary id 22 the decoder succeeds and
returns exactly the empty-string sentinel. -/
theorem C7_counterexample_silent_empty :
    decode_layer [22] Layer.CORE = some [""] := by
  decide

/-- Claim C7, amended: `decode_layer` performs no id validation and no
empty-slot check. For ids 22-31 the computed address still lands inside
the 256-slot table, in an unpopulated slot, so the decoder silently
emits the empty-string sentinel at those positions; only ids ≥ 32 make
the decode fail, and then only because the address overruns the table
(an index error), not with an `UnpopulatedAddress` error. -/
theorem C7_decode_layer_silent_sentinel :
    (∀ id, id < 32 → 22 ≤ id →
      lookupVerb (semantic_address id MODE_MASC POLE_EQ) = "") ∧
    (∀ ids : List Nat, (∀ id ∈ ids, id < 32) →
      decode_layer ids Layer.CORE = some (coreSpec ids)) ∧
    (∀ id, id < 256 → 32 ≤ id → decode_layer [id] Layer.CORE = none) := by
  refine ⟨by decide, ?_, by decide⟩
  intro ids h
  show lookupTableList (ids.map fun id => (id <<< 3) ||| Pos.EQ_MASC) = some (coreSpec ids)
  exact lookupTableList_coreMap ids h

/-- Concrete instances of the amended C7 statement: id 22 silently maps
to the sentinel inside a longer sequence, id 40 overruns the table. -/
theorem C7_decode_layer_silent_sentinel_witness :
    lookupVerb (semantic_address 22 MODE_MASC POLE_EQ) = "" ∧
    decode_layer [0, 22] Layer.CORE = some (coreSpec [0, 22]) ∧
    decode_layer [40] Layer.CORE = none :=
  ⟨C7_decode_layer_silent_sentinel.1 22 (by decide) (by decide),
   C7_decode_layer_silent_sentinel.2.1 [0, 22] (by decide),
   C7_decode_layer_silent_sentinel.2.2 40 (by decide) (by decide)⟩

/-! ### Lookup helper lemmas for C9 and C10 -/

/-- A successful association-list lookup returns a pair of the list. -/
theorem lookup_mem_pair {α β : Type} [BEq α] [LawfulBEq α]
    {l : List (α × β)} {k : α} {b : β} (h : l.lookup k = some b) :
    (k, b) ∈ l := by
  rcases List.lookup_eq_some_iff.mp h with ⟨l₁, l₂, rfl, -⟩
  simp

/-- Every id in the phoneme dictionary is below 22. -/
theorem phoneme_pair_id_lt : ∀ p ∈ PHONEME_TO_ID, p.2 < 22 := by
  decide

/-- Every dictionary pair inverts through the output array. -/
theorem phoneme_pair_roundtrip :
    ∀ p ∈ PHONEME_TO_ID, ID_TO_PHONEME.get? p.2 = some p.1 := by
  decide

/-- Ids produced by `encode_phonemes` are all below 22. -/
theorem encode_phonemes_ids_lt :
    ∀ (labels : List String) (ids : List Nat),
      encode_phonemes labels = some ids → ∀ id ∈ ids, id < 22 := by
  intro labels
  induction labels with
  | nil =>
    intro ids h id hid
    simp only [encode_phonemes, Option.some.injEq] at h
    subst h
    simp at hid
  | cons l rest ih =>
    intro ids h id hid
    simp only [encode_phonemes] at h
    split at h
    · rename_i i is' hl hrest
      cases h
      rcases List.mem_cons.mp hid with rfl | hmem
      · exact phoneme_pair_id_lt (l, id) (lookup_mem_pair hl)
      · exact ih is' hrest id hmem
    · cases h

/-! ### Claim C9: the core fast path -/

/-- The reduced table lookup coincides with the full-path lookup, stated
in the address form the decoder uses. -/
theorem coreTable_matches_addr :
    ∀ id, id < 22 →
      CORE_VERB_TABLE.get? id = VERB_TABLE.get? ((id <<< 3) ||| Pos.EQ_MASC) := by
  decide

/-- numpy indexing through the 22-entry table equals indexing through the
256-entry table at the core addresses. -/
theorem coreLookupMany_eq_lookupTableList :
    ∀ (ids : List Nat), (∀ id ∈ ids, id < 22) →
      coreLookupMany ids =
        lookupTableList (ids.map fun id => (id <<< 3) ||| Pos.EQ_MASC) := by
  intro ids
  induction ids with
  | nil => intro _; rfl
  | cons id rest ih =>
    intro h
    have hid : id < 22 := h id (List.mem_cons_self id rest)
    have hrest : ∀ x ∈ rest, x < 22 := fun x hx => h x (List.mem_cons_of_mem id hx)
    simp only [coreLookupMany, List.map_cons, lookupTableList]
    rw [coreTable_matches_addr id hid, ih hrest]

/-- Claim C9: core fast path equivalence — for every id in `[0,21]` the
reduced table holds exactly the primary-mode/equilibrium meaning of the
full table, and `phonemes_to_verbs_fast` on any encodable label list
equals decoding the encoded ids through the `Core` layer. -/
theorem C9_core_fast_path :
    (∀ id, id < 22 →
      CORE_VERB_TABLE.get? id = VERB_TABLE.get? (semantic_address id MODE_MASC POLE_EQ)) ∧
    (∀ (labels : List String) (ids : List Nat),
      encode_phonemes labels = some ids →
      phonemes_to_verbs_fast labels = decode_layer ids Layer.CORE) := by
  constructor
  · decide
  · intro labels ids h
    have hids : ∀ id ∈ ids, id < 22 := encode_phonemes_ids_lt labels ids h
    show (encode_phonemes labels).bind coreLookupMany = decode_layer ids Layer.CORE
    rw [h]
    show coreLookupMany ids =
      lookupTableList (ids.map fun id => (id <<< 3) ||| Pos.EQ_MASC)
    exact coreLookupMany_eq_lookupTableList ids hids

/-- Concrete instance of C9 at the labels `["n", "d"]`. -/
theorem C9_core_fast_path_witness :
    CORE_VERB_TABLE.get? 0 = VERB_TABLE.get? (semantic_address 0 MODE_MASC POLE_EQ) ∧
    phonemes_to_verbs_fast ["n", "d"] = decode_layer [0, 16] Layer.CORE :=
  ⟨C9_core_fast_path.1 0 (by decide),
   C9_core_fast_path.2 ["n", "d"] [0, 16] (by decide)⟩

/-! ### Claim C10: the label/id bijection -/

/-- Claim C10: label/id bijection — composing the id-to-label array with
the label-to-id dictionary is the identity on ids `[0,21]`; composing the
dictionary with the array is the identity on the 22 canonical labels; and
`decode_ids` inverts `encode_phonemes` on every encodable label list. -/
theorem C10_label_id_bijection :
    (∀ id, id < 22 →
      (ID_TO_PHONEME.get? id).bind (fun l => PHONEME_TO_ID.lookup l) = some id) ∧
    (∀ l ∈ phonemeVocab,
      (PHONEME_TO_ID.lookup l).bind (fun i => ID_TO_PHONEME.get? i) = some l) ∧
    (∀ (labels : List String) (ids : List Nat),
      encode_phonemes labels = some ids → decode_ids ids = some labels) := by
  refine ⟨by decide, by decide, ?_⟩
  intro labels
  induction labels with
  | nil =>
    intro ids h
    simp only [encode_phonemes, Option.some.injEq] at h
    subst h
    rfl
  | cons l rest ih =>
    intro ids h
    simp only [encode_phonemes] at h
    split at h
    · rename_i i is' hl hrest
      cases h
      have hget : ID_TO_PHONEME.get? i = some l :=
        phoneme_pair_roundtrip (l, i) (lookup_mem_pair hl)
      simp only [decode_ids]
      rw [hget, ih is' hrest]
    · cases h

/-- Concrete instances of C10 at id 9, label `"a"`, labels `["a", "h"]`. -/
theorem C10_label_id_bijection_witness :
    (ID_TO_PHONEME.get? 9).bind (fun l => PHONEME_TO_ID.lookup l) = some 9 ∧
    (PHONEME_TO_ID.lookup "a").bind (fun i => ID_TO_PHONEME.get? i) = some "a" ∧
    decode_ids [9, 21] = some ["a", "h"] :=
  ⟨C10_label_id_bijection.1 9 (by decide),
   C10_label_id_bijection.2.1 "a" (by decide),
   C10_label_id_bijection.2.2 ["a", "h"] [9, 21] (by decide)⟩

end EyeOfHorus
